import Mathlib

/-!
Verification development for the MCP OpenAPI server's authentication
providers (`src/auth-provider.ts`), the request-scoped context utilities
(`src/utils/request-context.ts`), and the request-body media-type selector
described in the design document.

TypeScript values are embedded shallowly: `Record<string, string>` becomes an
association list `List (String × String)`, nullable/optional strings become
`Option String`, methods that may `throw` return `Except String α`, and
`async` wrappers are dropped (every method is sequential and deterministic).
JavaScript string truthiness (`null`/`undefined`/`""` are falsy) is modelled
explicitly by `jsTruthy`.
-/

/-- JavaScript truthiness of a `string | null | undefined` value:
falsy exactly for `null`/`undefined` (here `none`) and the empty string. -/
def jsTruthy : Option String → Bool
  | none => false
  | some s => decide (s ≠ "")

/-- Models JavaScript `s.substring(0, n)`: the first `n` characters of `s`
(the whole string when `s` is shorter). -/
def jsSubstringTo (s : String) (n : Nat) : String :=
  ⟨s.data.take n⟩

/-- The substring relation: `SubstrOf pat s` holds when `pat` occurs
contiguously inside `s`. -/
def SubstrOf (pat s : String) : Prop :=
  ∃ pre post, s = pre ++ pat ++ post

/-- The `response` field of an axios error, reduced to the part the code
reads: its HTTP `status`. -/
structure AxiosResponse where
  status : Nat
deriving DecidableEq, Repr

/-- An axios error: it may or may not carry a response
(`error.response?.status` reads `undefined` when it does not). -/
structure AxiosError where
  response : Option AxiosResponse
deriving DecidableEq, Repr

/-- Function `isAuthError` from `src/auth-provider.ts`:
`error.response?.status === 401 || error.response?.status === 403`. -/
def isAuthError (error : AxiosError) : Bool :=
  error.response.map AxiosResponse.status == some 401 ||
    error.response.map AxiosResponse.status == some 403

/-- State of a `StaticAuthProvider`: the headers captured at construction. -/
structure StaticAuthProvider where
  headers : List (String × String)
deriving DecidableEq, Repr

/-- Constructor `new StaticAuthProvider(headers)`. -/
def StaticAuthProvider.new (headers : List (String × String)) : StaticAuthProvider :=
  { headers := headers }

/-- Constructor `new StaticAuthProvider()` — the constructor's default argument is `{}`. -/
def StaticAuthProvider.newDefault : StaticAuthProvider :=
  { headers := [] }

/-- Method `StaticAuthProvider.getAuthHeaders`: returns `{ ...this.headers }`,
a copy of the stored headers; it never throws. -/
def StaticAuthProvider.getAuthHeaders (self : StaticAuthProvider) :
    Except String (List (String × String)) :=
  .ok self.headers

/-- Method `StaticAuthProvider.handleAuthError`: ignores the error and resolves to
`false` (a static provider cannot recover from auth errors). -/
def StaticAuthProvider.handleAuthError (_error : AxiosError) : Except String Bool :=
  .ok false

/-- State of a `RedmineAuthProvider`: `apiKey` and `switchUser` fields,
both initialised to `null`. -/
structure RedmineAuthProvider where
  apiKey : Option String
  switchUser : Option String
deriving DecidableEq, Repr

/-- The field initialisers: `apiKey = null`, `switchUser = null`. -/
def RedmineAuthProvider.init : RedmineAuthProvider :=
  { apiKey := none, switchUser := none }

/-- Method `RedmineAuthProvider.setApiKey`. -/
def RedmineAuthProvider.setApiKey (self : RedmineAuthProvider) (apiKey : String) :
    RedmineAuthProvider :=
  { self with apiKey := some apiKey }

/-- Method `RedmineAuthProvider.setSwitchUser`. -/
def RedmineAuthProvider.setSwitchUser (self : RedmineAuthProvider) (username : String) :
    RedmineAuthProvider :=
  { self with switchUser := some username }

/-- Constructor `new RedmineAuthProvider(apiKey?, switchUser?)`: each optional argument is
passed to its setter only when truthy. -/
def RedmineAuthProvider.new (apiKey switchUser : Option String) : RedmineAuthProvider :=
  let self := RedmineAuthProvider.init
  let self := if jsTruthy apiKey then self.setApiKey (apiKey.getD "") else self
  if jsTruthy switchUser then self.setSwitchUser (switchUser.getD "") else self

/-- The message thrown by `RedmineAuthProvider.getAuthHeaders` when no API key
is available (string concatenation as written in the source). -/
def redmineNoKeyMsg : String :=
  "Redmine API key not set. Please set your API key using setApiKey() method.\n\n" ++
  "To get your API key:\n" ++
  "1. Go to your Redmine profile page\n" ++
  "2. Click on \x27API access key\x27\n" ++
  "3. Copy the generated key\n" ++
  "4. Use setApiKey() to configure it"

/-- Method `RedmineAuthProvider.getAuthHeaders`: throws when `!this.apiKey`; otherwise
builds the Redmine header record, appending the switch-user header when
`this.switchUser` is truthy. -/
def RedmineAuthProvider.getAuthHeaders (self : RedmineAuthProvider) :
    Except String (List (String × String)) :=
  if !jsTruthy self.apiKey then
    .error redmineNoKeyMsg
  else
    let headers : List (String × String) :=
      [("X-Redmine-API-Key", self.apiKey.getD ""),
       ("Accept", "application/json"),
       ("Content-Type", "application/json")]
    let headers :=
      if jsTruthy self.switchUser then
        headers ++ [("X-Redmine-Switch-User", self.switchUser.getD "")]
      else headers
    .ok headers

/-- The message thrown by `RedmineAuthProvider.handleAuthError` on status 401. -/
def redmine401Msg : String :=
  "Redmine authentication failed (401 Unauthorized). Please check:\n\n" ++
  "1. Your API key is valid and not expired\n" ++
  "2. REST API is enabled in Redmine (Administration → Settings → API → Enable REST API)\n" ++
  "3. Your user account has API access enabled\n" ++
  "4. The API key belongs to an active user account"

/-- The message thrown by `RedmineAuthProvider.handleAuthError` on status 403. -/
def redmine403Msg : String :=
  "Redmine access denied (403 Forbidden). Please check:\n\n" ++
  "1. Your user account has permission to access the requested resource\n" ++
  "2. If using user impersonation, your API key belongs to an admin user\n" ++
  "3. The REST API is properly configured in Redmine\n" ++
  "4. Your user account is not locked or disabled"

/-- Method `RedmineAuthProvider.handleAuthError`: reads
`statusCode = error.response?.status`, throws a descriptive error on 401 and
on 403, and otherwise resolves to `false` (never retry). -/
def RedmineAuthProvider.handleAuthError (error : AxiosError) : Except String Bool :=
  let statusCode := error.response.map AxiosResponse.status
  if statusCode = some 401 then
    .error redmine401Msg
  else if statusCode = some 403 then
    .error redmine403Msg
  else
    .ok false

/-- The record returned by `RedmineAuthProvider.getAuthStatus`. -/
structure AuthStatus where
  hasApiKey : Bool
  apiKeyPreview : Option String
  switchUser : Option String
deriving DecidableEq, Repr

/-- Method `RedmineAuthProvider.getAuthStatus`: `hasApiKey = !!this.apiKey`,
`apiKeyPreview` is a ternary on the truthiness of `this.apiKey` yielding
`this.apiKey.substring(0, 8) + "..."` or `null`. -/
def RedmineAuthProvider.getAuthStatus (self : RedmineAuthProvider) : AuthStatus :=
  { hasApiKey := jsTruthy self.apiKey
  , apiKeyPreview :=
      if jsTruthy self.apiKey then
        some (jsSubstringTo (self.apiKey.getD "") 8 ++ "...")
      else none
  , switchUser := self.switchUser }

/-- Method `RedmineAuthProvider.clearAuth`: sets both fields back to `null`. -/
def RedmineAuthProvider.clearAuth (_self : RedmineAuthProvider) : RedmineAuthProvider :=
  { apiKey := none, switchUser := none }

/-- Method `getAuthHeaders` as a state transformer on `this`: the method body contains
no assignment to `this.apiKey` or `this.switchUser`, so the state component is
returned as received. -/
def RedmineAuthProvider.getAuthHeadersM (self : RedmineAuthProvider) :
    Except String (List (String × String)) × RedmineAuthProvider :=
  (self.getAuthHeaders, self)

/-- Method `handleAuthError` as a state transformer on `this` (the body never touches
the fields). -/
def RedmineAuthProvider.handleAuthErrorM (self : RedmineAuthProvider) (error : AxiosError) :
    Except String Bool × RedmineAuthProvider :=
  (RedmineAuthProvider.handleAuthError error, self)

/-- Method `getAuthStatus` as a state transformer on `this` (the body only reads the
fields). -/
def RedmineAuthProvider.getAuthStatusM (self : RedmineAuthProvider) :
    AuthStatus × RedmineAuthProvider :=
  (self.getAuthStatus, self)

/-- Method `StaticAuthProvider.getAuthHeaders` as a state transformer on `this`
(the body only spreads `this.headers` into a new object). -/
def StaticAuthProvider.getAuthHeadersM (self : StaticAuthProvider) :
    Except String (List (String × String)) × StaticAuthProvider :=
  (self.getAuthHeaders, self)

/-- Structure `RequestContextValue` from `src/utils/request-context.ts`: optional
inbound headers (each value a string, an array of strings, or absent) and an
optional session id. -/
structure RequestContextValue where
  headers : Option (List (String × Option (String ⊕ List String)))
  sessionId : Option String
deriving DecidableEq, Repr

/-- The `AsyncLocalStorage` store as seen by one synchronous/async call chain:
`none` outside every `run` scope (`getStore()` returns `undefined`), `some c`
inside `run(c, ...)`. The ambient store is made explicit as a parameter
(reader-style shallow embedding). -/
def ContextStore : Type :=
  Option RequestContextValue

/-- Function `getRequestContext()`: `storage.getStore()`, i.e. the ambient store of the
current call chain. -/
def getRequestContext (store : ContextStore) : Option RequestContextValue :=
  store

/-- Function `runWithRequestContext(context, callback)`: `storage.run(context, callback)`
runs the callback with the ambient store set to `context`, whatever the store
of the enclosing chain was, and returns the callback's result. -/
def runWithRequestContext {T : Type} (context : RequestContextValue)
    (callback : ContextStore → T) (_store : ContextStore) : T :=
  callback (some context)

/-- Interleaved execution of two invocations, each started by its own
`runWithRequestContext` scope. `AsyncLocalStorage` propagates the store along
each asynchronous call chain, so every step of invocation `i` reads with store
`some cᵢ`. A schedule entry `true` steps the first invocation, `false` the
second; `n1`/`n2` count the remaining `getRequestContext` calls of each
invocation, and the trace records which invocation observed which value. -/
def runConcurrent (c1 c2 : RequestContextValue) :
    Nat → Nat → List Bool → List (Bool × Option RequestContextValue)
  | _, _, [] => []
  | n1, n2, pick :: sched =>
    if pick then
      match n1 with
      | 0 => runConcurrent c1 c2 0 n2 sched
      | m + 1 => (true, getRequestContext (some c1)) :: runConcurrent c1 c2 m n2 sched
    else
      match n2 with
      | 0 => runConcurrent c1 c2 n1 0 sched
      | m + 1 => (false, getRequestContext (some c2)) :: runConcurrent c1 c2 n1 m sched

/-- Modelled from the spec: the Request Body Selector implementation is not
among the provided sources. §4.3: "prefer `application/json` if present; else
the first declared media type in document order". The input list is the
operation's declared media types in document order; the result is the selected
media type (`none` for an empty declaration). -/
def selectBody (contentTypes : List String) : Option String :=
  match contentTypes.find? (fun t => t == "application/json") with
  | some t => some t
  | none => contentTypes.head?

deriving instance DecidableEq for Except

set_option maxRecDepth 8192 in
/-- Helper: the 401 message literally starts with (hence contains) the phrase
the caller is promised. -/
theorem substrOf_401 :
    SubstrOf "Redmine authentication failed (401 Unauthorized)" redmine401Msg :=
  ⟨"", ". Please check:\n\n" ++
    "1. Your API key is valid and not expired\n" ++
    "2. REST API is enabled in Redmine (Administration → Settings → API → Enable REST API)\n" ++
    "3. Your user account has API access enabled\n" ++
    "4. The API key belongs to an active user account", by decide⟩

set_option maxRecDepth 8192 in
/-- Helper: the 403 message literally starts with (hence contains) the phrase
the caller is promised. -/
theorem substrOf_403 :
    SubstrOf "Redmine access denied (403 Forbidden)" redmine403Msg :=
  ⟨"", ". Please check:\n\n" ++
    "1. Your user account has permission to access the requested resource\n" ++
    "2. If using user impersonation, your API key belongs to an admin user\n" ++
    "3. The REST API is properly configured in Redmine\n" ++
    "4. Your user account is not locked or disabled", by decide⟩

/-- Claim C1: `RedmineAuthProvider.getAuthHeaders` fails (throws the
no-key error) on every provider state whose API key is unset, and after any
`clearAuth`; `StaticAuthProvider` constructed with no headers instead
returns successfully with the empty mapping. -/
theorem claim_C1 :
    (∀ r : RedmineAuthProvider, r.apiKey = none → r.getAuthHeaders = .error redmineNoKeyMsg) ∧
    (∀ r : RedmineAuthProvider, r.clearAuth.getAuthHeaders = .error redmineNoKeyMsg) ∧
    StaticAuthProvider.newDefault.getAuthHeaders = .ok [] := by
  refine ⟨?_, ?_, rfl⟩
  · intro r h
    simp [RedmineAuthProvider.getAuthHeaders, h, jsTruthy]
  · intro r
    rfl

/-- Witness for claim C1 at the freshly-constructed provider. -/
theorem claim_C1_witness :
    RedmineAuthProvider.init.getAuthHeaders = .error redmineNoKeyMsg :=
  claim_C1.1 RedmineAuthProvider.init rfl

/-- Claim C2: `RedmineAuthProvider.handleAuthError` throws an error whose
message contains "Redmine authentication failed (401 Unauthorized)" exactly
on status 401, throws an error whose message contains "Redmine access denied
(403 Forbidden)" exactly on status 403, and otherwise (any other status or a
missing response) returns normally with `false`. -/
theorem claim_C2 (e : AxiosError) :
    (e.response.map AxiosResponse.status = some 401 →
      RedmineAuthProvider.handleAuthError e = .error redmine401Msg ∧
        SubstrOf "Redmine authentication failed (401 Unauthorized)" redmine401Msg) ∧
    (e.response.map AxiosResponse.status = some 403 →
      RedmineAuthProvider.handleAuthError e = .error redmine403Msg ∧
        SubstrOf "Redmine access denied (403 Forbidden)" redmine403Msg) ∧
    (e.response.map AxiosResponse.status ≠ some 401 →
      e.response.map AxiosResponse.status ≠ some 403 →
      RedmineAuthProvider.handleAuthError e = .ok false) := by
  refine ⟨fun h => ⟨?_, substrOf_401⟩, fun h => ⟨?_, substrOf_403⟩, fun h1 h3 => ?_⟩
  · simp [RedmineAuthProvider.handleAuthError, h]
  · simp [RedmineAuthProvider.handleAuthError, h]
  · simp [RedmineAuthProvider.handleAuthError, h1, h3]

/-- Witness for claim C2 at statuses 401, 403, 500 and at a missing
response. -/
theorem claim_C2_witness :
    RedmineAuthProvider.handleAuthError { response := some { status := 401 } } =
        .error redmine401Msg ∧
    RedmineAuthProvider.handleAuthError { response := some { status := 403 } } =
        .error redmine403Msg ∧
    RedmineAuthProvider.handleAuthError { response := some { status := 500 } } = .ok false ∧
    RedmineAuthProvider.handleAuthError { response := none } = .ok false :=
  ⟨((claim_C2 { response := some { status := 401 } }).1 rfl).1,
   ((claim_C2 { response := some { status := 403 } }).2.1 rfl).1,
   (claim_C2 { response := some { status := 500 } }).2.2 (by decide) (by decide),
   (claim_C2 { response := none }).2.2 (by decide) (by decide)⟩

/-- Claim C3: `isAuthError` returns `true` exactly when the error carries a
response whose status is 401 or 403; with any other status or no response
object it returns `false`. -/
theorem claim_C3 (e : AxiosError) :
    isAuthError e = true ↔
      ∃ r : AxiosResponse, e.response = some r ∧ (r.status = 401 ∨ r.status = 403) := by
  obtain ⟨response⟩ := e
  cases response with
  | none => simp [isAuthError]
  | some r => obtain ⟨s⟩ := r; simp [isAuthError]

/-- Counterexample to claim C4 as stated: `setApiKey("")` does set an API
key, yet `getAuthHeaders` does not return the claimed mapping (the truthiness
check `!this.apiKey` also rejects the empty string, so it throws). -/
theorem claim_C4_counterexample :
    RedmineAuthProvider.getAuthHeaders (RedmineAuthProvider.init.setApiKey "") ≠
      .ok [("X-Redmine-API-Key", ""), ("Accept", "application/json"),
           ("Content-Type", "application/json")] := by decide

/-- Helper: whenever `RedmineAuthProvider.getAuthHeaders` succeeds, the keys
of the returned mapping are exactly one of the two fixed header-name lists. -/
theorem getAuthHeaders_keys (r : RedmineAuthProvider) (hs : List (String × String))
    (hok : r.getAuthHeaders = .ok hs) :
    hs.map Prod.fst = ["X-Redmine-API-Key", "Accept", "Content-Type"] ∨
    hs.map Prod.fst = ["X-Redmine-API-Key", "Accept", "Content-Type",
      "X-Redmine-Switch-User"] := by
  unfold RedmineAuthProvider.getAuthHeaders at hok
  split at hok
  · cases hok
  · simp only [] at hok
    split at hok
    · injection hok with h2
      subst h2
      right
      simp
    · injection hok with h2
      subst h2
      left
      simp

/-- Claim C4 (amended): when a NON-EMPTY API key `k` is set,
`getAuthHeaders` succeeds and returns exactly the mapping
`X-Redmine-API-Key: k, Accept: application/json,
Content-Type: application/json`, extended with `X-Redmine-Switch-User: u`
exactly when a non-empty switch user `u` is set; the returned mapping never
contains an `Authorization` header. -/
theorem claim_C4 (r : RedmineAuthProvider) (k : String)
    (hk : r.apiKey = some k) (hne : k ≠ "") :
    ((r.switchUser = none ∨ r.switchUser = some "") →
      r.getAuthHeaders = .ok [("X-Redmine-API-Key", k), ("Accept", "application/json"),
        ("Content-Type", "application/json")]) ∧
    (∀ u, r.switchUser = some u → u ≠ "" →
      r.getAuthHeaders = .ok [("X-Redmine-API-Key", k), ("Accept", "application/json"),
        ("Content-Type", "application/json"), ("X-Redmine-Switch-User", u)]) ∧
    (∀ hs, r.getAuthHeaders = .ok hs → "Authorization" ∉ hs.map Prod.fst) := by
  have htr : jsTruthy r.apiKey = true := by simp [jsTruthy, hk, hne]
  refine ⟨?_, ?_, ?_⟩
  · rintro (h | h) <;> simp [RedmineAuthProvider.getAuthHeaders, htr, hk, h, jsTruthy, hne]
  · intro u hu hune
    simp [RedmineAuthProvider.getAuthHeaders, htr, hk, hu, jsTruthy, hune, hne]
  · intro hs hok
    rcases getAuthHeaders_keys r hs hok with h | h <;> rw [h] <;> decide

/-- Witness for claim C4 at a provider holding key "test-key" and switch user
"bot". -/
theorem claim_C4_witness :
    RedmineAuthProvider.getAuthHeaders { apiKey := some "test-key", switchUser := some "bot" } =
      .ok [("X-Redmine-API-Key", "test-key"), ("Accept", "application/json"),
           ("Content-Type", "application/json"), ("X-Redmine-Switch-User", "bot")] :=
  (claim_C4 { apiKey := some "test-key", switchUser := some "bot" } "test-key" rfl
    (by decide)).2.1 "bot" rfl (by decide)

/-- Claim C5: `runWithRequestContext(c, f)` returns exactly `f`'s value, `f`
runs with the ambient store set to `c` so `getRequestContext` inside the scope
returns `c`, and `getRequestContext` outside every scope returns
`undefined`. -/
theorem claim_C5 {T : Type} (c : RequestContextValue) (f : ContextStore → T)
    (store : ContextStore) :
    runWithRequestContext c f store = f (some c) ∧
    runWithRequestContext c getRequestContext store = some c ∧
    getRequestContext none = none :=
  ⟨rfl, rfl, rfl⟩

/-- Claim C6: `selectBody` picks `application/json` from
`{application/json, application/xml}` in either declaration order, and in
general picks `application/json` whenever it is declared and the first
declared media type otherwise. -/
theorem claim_C6 :
    (selectBody ["application/json", "application/xml"] = some "application/json" ∧
     selectBody ["application/xml", "application/json"] = some "application/json") ∧
    ∀ ts : List String,
      selectBody ts = if "application/json" ∈ ts then some "application/json" else ts.head? := by
  refine ⟨⟨by decide, by decide⟩, ?_⟩
  intro ts
  by_cases hmem : "application/json" ∈ ts
  · have hsome : (ts.find? (fun t => t == "application/json")).isSome :=
      List.find?_isSome.mpr ⟨_, hmem, by simp⟩
    rcases Option.isSome_iff_exists.mp hsome with ⟨t, ht⟩
    have hp := List.find?_some ht
    simp only [beq_iff_eq] at hp
    simp [selectBody, ht, hp, hmem]
  · have hnone : ts.find? (fun t => t == "application/json") = none := by
      rw [List.find?_eq_none]
      intro x hx
      simp only [beq_iff_eq]
      intro hxe
      exact hmem (hxe ▸ hx)
    simp [selectBody, hnone, hmem]

/-- Claim C7: `StaticAuthProvider.handleAuthError` returns `false` for every
error, and `RedmineAuthProvider.handleAuthError`, whenever it returns at all,
returns `false` — neither shipped provider ever signals retry. -/
theorem claim_C7 :
    (∀ e : AxiosError, StaticAuthProvider.handleAuthError e = .ok false) ∧
    (∀ (e : AxiosError) (b : Bool), RedmineAuthProvider.handleAuthError e = .ok b → b = false) := by
  refine ⟨fun e => rfl, fun e b h => ?_⟩
  by_cases h1 : e.response.map AxiosResponse.status = some 401
  · simp [RedmineAuthProvider.handleAuthError, h1] at h
  · by_cases h3 : e.response.map AxiosResponse.status = some 403
    · simp [RedmineAuthProvider.handleAuthError, h1, h3] at h
    · simp [RedmineAuthProvider.handleAuthError, h1, h3] at h
      exact h

/-- Witness for claim C7 at a 401 error (static provider) and at a
response-less error (Redmine provider). -/
theorem claim_C7_witness :
    StaticAuthProvider.handleAuthError { response := some { status := 401 } } = .ok false ∧
    (false : Bool) = false :=
  ⟨claim_C7.1 { response := some { status := 401 } },
   claim_C7.2 { response := none } false rfl⟩

/-- Helper: taking a positive number of characters yields the empty string
only from the empty string. -/
theorem jsSubstringTo_empty_iff (s : String) (n : Nat) (hn : n ≠ 0) :
    jsSubstringTo s n = "" ↔ s = "" := by
  obtain ⟨data⟩ := s
  constructor
  · intro h
    have h2 : data.take n = [] := congrArg String.data h
    rcases List.take_eq_nil_iff.mp h2 with h3 | h3
    · exact absurd h3 hn
    · simp [h3]
  · intro h
    have h2 : data = [] := congrArg String.data h
    simp [jsSubstringTo, h2]

/-- Counterexample to claim C8 as stated: with the empty API key set, a key is
set but `apiKeyPreview` is `null`, not the key's first 8 characters followed
by "..." (the ternary `this.apiKey ? ... : null` also rejects the empty
string). -/
theorem claim_C8_counterexample :
    (RedmineAuthProvider.getAuthStatus (RedmineAuthProvider.init.setApiKey "")).apiKeyPreview ≠
      some (jsSubstringTo "" 8 ++ "...") := by decide

/-- Claim C8 (amended): `getAuthStatus` reveals at most the first 8 characters
of the API key — any two provider states with keys set that agree on their
first 8 characters and with equal switch users produce equal statuses;
`apiKeyPreview` is the key's first 8 characters followed by "..." when a
NON-EMPTY key is set and `null` otherwise (an empty key is reported as
unset), and `hasApiKey` is `true` exactly when `apiKeyPreview` is
non-`null`. -/
theorem claim_C8 :
    (∀ (r1 r2 : RedmineAuthProvider) (k1 k2 : String),
      r1.apiKey = some k1 → r2.apiKey = some k2 →
      jsSubstringTo k1 8 = jsSubstringTo k2 8 → r1.switchUser = r2.switchUser →
      r1.getAuthStatus = r2.getAuthStatus) ∧
    (∀ (r : RedmineAuthProvider) (k : String), r.apiKey = some k → k ≠ "" →
      r.getAuthStatus.apiKeyPreview = some (jsSubstringTo k 8 ++ "...")) ∧
    (∀ r : RedmineAuthProvider, jsTruthy r.apiKey = false →
      r.getAuthStatus.apiKeyPreview = none) ∧
    (∀ r : RedmineAuthProvider,
      r.getAuthStatus.hasApiKey = true ↔ r.getAuthStatus.apiKeyPreview ≠ none) := by
  refine ⟨?_, ?_, ?_, ?_⟩
  · intro r1 r2 k1 k2 hk1 hk2 h8 hsw
    by_cases he : k1 = ""
    · have he2 : k2 = "" := by
        have hk2e : jsSubstringTo k2 8 = "" := by
          rw [← h8, he]; rfl
        exact (jsSubstringTo_empty_iff k2 8 (by decide)).mp hk2e
      simp [RedmineAuthProvider.getAuthStatus, hk1, hk2, he, he2, hsw, jsTruthy]
    · have he2 : k2 ≠ "" := by
        intro hcc
        apply he
        have hk1e : jsSubstringTo k1 8 = "" := by
          rw [h8, hcc]; rfl
        exact (jsSubstringTo_empty_iff k1 8 (by decide)).mp hk1e
      simp [RedmineAuthProvider.getAuthStatus, hk1, hk2, he, he2, hsw, jsTruthy, h8]
  · intro r k hk hne
    simp [RedmineAuthProvider.getAuthStatus, hk, jsTruthy, hne]
  · intro r h
    simp [RedmineAuthProvider.getAuthStatus, h]
  · intro r
    by_cases h : jsTruthy r.apiKey = true
    · simp [RedmineAuthProvider.getAuthStatus, h]
    · simp [RedmineAuthProvider.getAuthStatus, h]

/-- Witness for claim C8 at two keys sharing the prefix "abcdefgh". -/
theorem claim_C8_witness :
    RedmineAuthProvider.getAuthStatus { apiKey := some "abcdefghXXX", switchUser := none } =
      RedmineAuthProvider.getAuthStatus { apiKey := some "abcdefghYYY", switchUser := none } :=
  claim_C8.1 _ _ "abcdefghXXX" "abcdefghYYY" rfl rfl (by decide) rfl

/-- Claim C9: the query operations are state-preserving — `getAuthHeaders`,
`handleAuthError` and `getAuthStatus` leave the Redmine provider's fields
exactly as they were, and `StaticAuthProvider.getAuthHeaders` leaves its
stored headers unchanged while returning them. -/
theorem claim_C9 (r : RedmineAuthProvider) (st : StaticAuthProvider) (e : AxiosError) :
    r.getAuthHeadersM.2 = r ∧ (r.handleAuthErrorM e).2 = r ∧ r.getAuthStatusM.2 = r ∧
    st.getAuthHeadersM.2 = st ∧ st.getAuthHeadersM.1 = .ok st.headers :=
  ⟨rfl, rfl, rfl, rfl, rfl⟩

/-- Claim C10: in any interleaved execution of two invocations started in
their own `runWithRequestContext` scopes with distinct context values, every
`getRequestContext` observation of the first invocation is its own context
(never the other's), and symmetrically for the second. -/
theorem claim_C10 (c1 c2 : RequestContextValue) (hne : c1 ≠ c2)
    (n1 n2 : Nat) (sched : List Bool) :
    ∀ obs ∈ runConcurrent c1 c2 n1 n2 sched,
      (obs.1 = true → obs.2 = some c1 ∧ obs.2 ≠ some c2) ∧
      (obs.1 = false → obs.2 = some c2 ∧ obs.2 ≠ some c1) := by
  induction sched generalizing n1 n2 with
  | nil =>
    intro obs h
    simp [runConcurrent] at h
  | cons pick rest ih =>
    intro obs h
    cases pick with
    | true =>
      cases n1 with
      | zero =>
        exact ih 0 n2 obs (by simpa [runConcurrent] using h)
      | succ m =>
        simp only [runConcurrent, getRequestContext, List.mem_cons, reduceIte] at h
        rcases h with h | h
        · subst h
          refine ⟨fun _ => ⟨rfl, ?_⟩, fun hcc => by cases hcc⟩
          simp only [ne_eq, Option.some.injEq]
          exact fun hcc => hne hcc
        · exact ih m n2 obs h
    | false =>
      cases n2 with
      | zero =>
        exact ih n1 0 obs (by simpa [runConcurrent] using h)
      | succ m =>
        simp only [runConcurrent, Bool.false_eq_true, if_false, getRequestContext,
          List.mem_cons] at h
        rcases h with h | h
        · subst h
          refine ⟨fun hcc => (by cases hcc), fun _ => ⟨rfl, ?_⟩⟩
          simp only [ne_eq, Option.some.injEq]
          exact fun hcc => hne hcc.symm
        · exact ih n1 m obs h

/-- Witness for claim C10 at two distinct session ids and the alternating
two-step schedule. -/
theorem claim_C10_witness :
    ((true, some ({ headers := none, sessionId := some "alpha" } : RequestContextValue)) :
        Bool × Option RequestContextValue).2 ≠
      some { headers := none, sessionId := some "beta" } :=
  ((claim_C10 { headers := none, sessionId := some "alpha" }
      { headers := none, sessionId := some "beta" } (by decide) 1 1 [true, false]
      (true, some { headers := none, sessionId := some "alpha" })
      (by simp [runConcurrent, getRequestContext])).1 rfl).2
